import Mathlib

/-!
Verification of the table language front end (lexer.py, table_ast.py,
table_parser.py): a shallow embedding of the tokenizer and the recursive
descent parser, with theorems checking the behaviours described by the
design document.

Python run-time failures are modelled explicitly: `Fatal.tableError` is the
repository's single diagnostic exception class (error.py `TableError`),
`Fatal.assertion` models a failing Python `assert`, and
`Fatal.attributeError` models reading an attribute that was never assigned
(as happens for `Token.val` when the constructor skipped the assignment).
Loops are given a fuel parameter; `Fatal.outOfFuel` is an artifact of the
embedding and is never reached when the fuel exceeds the input length.
-/

namespace Table

/-- Source location (error.py `Location`): file name, absolute character
offset, 0-based line and column. The column is an integer because
`Lexer.advance` temporarily sets it to -1 after a newline. -/
structure Location where
  file : String
  posn : Nat
  line : Nat
  col : Int
deriving DecidableEq, Repr

/-- Errors a run of the front end can raise. `tableError` is error.py's
`TableError`; `assertion` is a failing Python `assert`; `attributeError` is
an access to a missing object attribute; `outOfFuel` is an embedding
artifact for exhausted recursion fuel. -/
inductive Fatal where
  | tableError (msg : String) (loc : Option Location)
  | assertion (msg : String)
  | attributeError (field : String)
  | outOfFuel
deriving DecidableEq, Repr

/-- Token classification tags (lexer.py `TokenType`). The final three
members are absent from src/lexer.py. Modelled from the spec: the grammar
of section 4.3/4.4 dispatches on `Self`, `import` and `interface` tokens,
which table_parser.py references as `TokenType.SELF`, `TokenType.IMPORT`
and `TokenType.INTERFACE`. -/
inductive TokenType where
  | INT_LIT | FLOAT_LIT | STR_LIT | IDENT
  | L_PAREN | R_PAREN | L_BRACK | R_BRACK | L_SQUARE | R_SQUARE
  | L_ANGLE | R_ANGLE | DOT | COMMA | PLUS | MINUS | STAR | DIVIDE
  | EQUALS | DOUBLE_EQUALS | COLON | SEMICOLON | AMPERSAND | APOSTROPHE
  | EOF
  | IF | ELSE | FOR | WHILE | RETURN | STRUCT | FUN | LET | CONST
  | INT | FLOAT | STR
  | SELF | IMPORT | INTERFACE
deriving DecidableEq, Repr

/-- Member name of a token type, mirroring Python's `IntEnum.__str__`. -/
def TokenType.toStr : TokenType → String
  | .INT_LIT => "INT_LIT" | .FLOAT_LIT => "FLOAT_LIT" | .STR_LIT => "STR_LIT"
  | .IDENT => "IDENT" | .L_PAREN => "L_PAREN" | .R_PAREN => "R_PAREN"
  | .L_BRACK => "L_BRACK" | .R_BRACK => "R_BRACK" | .L_SQUARE => "L_SQUARE"
  | .R_SQUARE => "R_SQUARE" | .L_ANGLE => "L_ANGLE" | .R_ANGLE => "R_ANGLE"
  | .DOT => "DOT" | .COMMA => "COMMA" | .PLUS => "PLUS" | .MINUS => "MINUS"
  | .STAR => "STAR" | .DIVIDE => "DIVIDE" | .EQUALS => "EQUALS"
  | .DOUBLE_EQUALS => "DOUBLE_EQUALS" | .COLON => "COLON"
  | .SEMICOLON => "SEMICOLON" | .AMPERSAND => "AMPERSAND"
  | .APOSTROPHE => "APOSTROPHE" | .EOF => "EOF" | .IF => "IF"
  | .ELSE => "ELSE" | .FOR => "FOR" | .WHILE => "WHILE" | .RETURN => "RETURN"
  | .STRUCT => "STRUCT" | .FUN => "FUN" | .LET => "LET" | .CONST => "CONST"
  | .INT => "INT" | .FLOAT => "FLOAT" | .STR => "STR" | .SELF => "SELF"
  | .IMPORT => "IMPORT" | .INTERFACE => "INTERFACE"

/-- A token's decoded value (lexer.py `Token.val`, typed `int | str` on the
paths the lexer produces). -/
inductive TokenVal where
  | int (n : Int)
  | str (s : String)
deriving DecidableEq, Repr

/-- Python truthiness of a token value: 0 and the empty string are falsy. -/
def TokenVal.truthy : TokenVal → Bool
  | .int n => n != 0
  | .str s => s != ""

/-- A lexical token (lexer.py `Token`). `val` is an `Option` because
`Token.__init__` only assigns `self.val` when the passed value is truthy;
`none` models the attribute being absent. -/
structure Token where
  typ : TokenType
  loc : Location
  lexeme : String
  val : Option TokenVal
deriving DecidableEq, Repr

/-- Token construction (lexer.py `Token.__init__`): the value is stored
only when it is truthy, otherwise the `val` attribute is never assigned. -/
def mkToken (typ : TokenType) (loc : Location) (lexeme : String)
    (value : Option TokenVal) : Token :=
  { typ := typ, loc := loc, lexeme := lexeme,
    val := match value with
      | some v => if v.truthy then some v else none
      | none => none }

/-- Read `tok.val`; raises `attributeError` when the attribute was never
assigned, as Python does. -/
def Token.getVal (t : Token) : Except Fatal TokenVal :=
  match t.val with
  | some v => .ok v
  | none => .error (.attributeError "val")

/-- Keyword table (lexer.py `KEYWORD_DICT`). The final three entries are
absent from src/lexer.py. Modelled from the spec: section 4.1 says keyword
scanning "looks the text up in a fixed keyword table" and sections 4.3/4.4
require `Self`, `import` and `interface` to reach the parser as their own
token types. -/
def keywordDict : List (String × TokenType) :=
  [("if", .IF), ("else", .ELSE), ("for", .FOR), ("while", .WHILE),
   ("return", .RETURN), ("struct", .STRUCT), ("fun", .FUN), ("let", .LET),
   ("const", .CONST), ("int", .INT), ("float", .FLOAT), ("str", .STR),
   ("Self", .SELF), ("import", .IMPORT), ("interface", .INTERFACE)]

/-- Keyword lookup, mirroring `ident in KEYWORD_DICT`. -/
def lookupKeyword (s : String) : Option TokenType :=
  (keywordDict.find? (fun p => p.1 == s)).map (fun p => p.2)

/-- The scanning state of the lexer: the source text, the cursor location
and the current character (lexer.py `Lexer.contents`, `.loc`,
`.current_char`). The peek buffer lives in `Lexer` below; the Python scan
methods never touch it, which this split makes structural. -/
structure Cursor where
  contents : List Char
  loc : Location
  current_char : Option Char
deriving DecidableEq, Repr

/-- Initial cursor over a source text (from `Lexer.__init__`): position 0,
current character set to the first character when the input is nonempty. -/
def mkCursor (file : String) (contents : String) : Cursor :=
  { contents := contents.toList,
    loc := { file := file, posn := 0, line := 0, col := 0 },
    current_char := contents.toList[0]? }

/-- Advance by one character (lexer.py `Lexer.advance`): no-op at end of
input; a newline bumps the line counter and resets the column to -1 before
the common increment. -/
def advance (c : Cursor) : Cursor :=
  match c.current_char with
  | none => c
  | some _ =>
    let loc0 :=
      if c.contents[c.loc.posn]? = some '\n' then
        { c.loc with line := c.loc.line + 1, col := -1 }
      else c.loc
    let loc1 := { loc0 with posn := loc0.posn + 1, col := loc0.col + 1 }
    { c with loc := loc1, current_char := c.contents[loc1.posn]? }

/-- Skip one run of whitespace (lexer.py `Lexer.skip_whitespace`). -/
def skip_whitespace : Nat → Cursor → Cursor
  | 0, c => c
  | fuel + 1, c =>
    match c.current_char with
    | some ch =>
      if ch.isWhitespace then skip_whitespace fuel (advance c) else c
    | none => c

/-- Skip one comment, up to the next newline (lexer.py
`Lexer.skip_comment`). -/
def skip_comment : Nat → Cursor → Cursor
  | 0, c => c
  | fuel + 1, c =>
    match c.current_char with
    | some ch =>
      if ch ≠ '\n' then skip_comment fuel (advance c) else c
    | none => c

/-- Alternate between whitespace and comment skipping until neither applies
(lexer.py `Lexer.skip_whitespace_and_comments`). -/
def skip_ws_comments : Nat → Cursor → Cursor
  | 0, c => c
  | fuel + 1, c =>
    match c.current_char with
    | none => c
    | some ch =>
      if ch.isWhitespace then skip_ws_comments fuel (skip_whitespace fuel c)
      else if ch = '#' then skip_ws_comments fuel (skip_comment fuel c)
      else c

/-- The escape table of `Lexer.consume_string`: the decoded character for
each recognized escape target. 39 is the apostrophe code point. -/
def escape_char (ch : Char) : Option Char :=
  if ch = 'a' then some (Char.ofNat 7)
  else if ch = 'b' then some (Char.ofNat 8)
  else if ch = 'f' then some (Char.ofNat 12)
  else if ch = 'n' then some '\n'
  else if ch = 'r' then some '\r'
  else if ch = 't' then some '\t'
  else if ch = 'v' then some (Char.ofNat 11)
  else if ch = '\\' then some '\\'
  else if ch = Char.ofNat 39 then some (Char.ofNat 39)
  else if ch = '"' then some '"'
  else if ch = 'e' then some (Char.ofNat 27)
  else none

/-- The scan loop of `Lexer.consume_string`. On end of input the Python
`while` simply exits and the token is still built; the `case False:` arm
that raises "Unexpected EOF" never matches because `current_char` is `None`
(matched by identity), so a backslash at end of input falls to the wildcard
arm and raises the unknown-escape diagnostic with the text "None". -/
def consume_string_loop : Nat → Cursor → String → Except Fatal (String × Cursor)
  | 0, c, acc => .ok (acc, c)
  | fuel + 1, c, acc =>
    match c.current_char with
    | none => .ok (acc, c)
    | some ch =>
      if ch = '"' then .ok (acc, advance c)
      else if ch = '\\' then
        let c1 := advance c
        match c1.current_char with
        | none =>
          .error (.tableError "Unknown escaped character: \\None" (some c1.loc))
        | some e =>
          match escape_char e with
          | some d => consume_string_loop fuel (advance c1) (acc.push d)
          | none =>
            .error (.tableError ("Unknown escaped character: \\" ++ e.toString)
              (some c1.loc))
      else consume_string_loop fuel (advance c) (acc.push ch)

/-- Consume a string literal (lexer.py `Lexer.consume_string`): the token's
lexeme is the decoded text re-enclosed in double quotes and its value is
the decoded text. -/
def consume_string (fuel : Nat) (loc : Location) (c : Cursor) :
    Except Fatal (Token × Cursor) :=
  if c.current_char = some '"' then
    match consume_string_loop fuel (advance c) "" with
    | .ok (s, c1) =>
      .ok (mkToken .STR_LIT loc ("\"" ++ s ++ "\"") (some (.str s)), c1)
    | .error e => .error e
  else .error (.assertion "unreachable")

/-- Decimal value of a digit string, modelling Python's `int(num_str)` on
the all-digit strings the number scanner produces. -/
def digits_to_nat (s : String) : Nat :=
  s.toList.foldl (fun a ch => 10 * a + (ch.toNat - 48)) 0

/-- The scan loop of `Lexer.consume_number`: a maximal digit run; a `.`
inside the run hits `assert False, "not implemented: floating point
literals"`. -/
def consume_number_loop : Nat → Cursor → String → Except Fatal (String × Cursor)
  | 0, c, acc => .ok (acc, c)
  | fuel + 1, c, acc =>
    match c.current_char with
    | none => .ok (acc, c)
    | some ch =>
      if ch.isDigit ∨ ch = '.' then
        if ch = '.' then
          .error (.assertion "not implemented: floating point literals")
        else consume_number_loop fuel (advance c) (acc.push ch)
      else .ok (acc, c)

/-- Consume an integer literal (lexer.py `Lexer.consume_number`). -/
def consume_number (fuel : Nat) (loc : Location) (c : Cursor) :
    Except Fatal (Token × Cursor) :=
  match consume_number_loop fuel c "" with
  | .ok (s, c1) =>
    .ok (mkToken .INT_LIT loc s (some (.int (digits_to_nat s))), c1)
  | .error e => .error e

/-- The scan loop of `Lexer.consume_ident`: a maximal run of alphanumeric
or underscore characters. -/
def consume_ident_loop : Nat → Cursor → String → String × Cursor
  | 0, c, acc => (acc, c)
  | fuel + 1, c, acc =>
    match c.current_char with
    | none => (acc, c)
    | some ch =>
      if ch.isAlphanum ∨ ch = '_' then
        consume_ident_loop fuel (advance c) (acc.push ch)
      else (acc, c)

/-- Consume an identifier or keyword (lexer.py `Lexer.consume_ident`). -/
def consume_ident (fuel : Nat) (loc : Location) (c : Cursor) : Token × Cursor :=
  let (ident, c1) := consume_ident_loop fuel c ""
  match lookupKeyword ident with
  | some k => (mkToken k loc ident (some (.str ident)), c1)
  | none => (mkToken .IDENT loc ident (some (.str ident)), c1)

/-- Produce the next token from the character stream: the body of lexer.py
`Lexer.next_token` below the peek-buffer check. The dispatch reads
`contents[posn]`, which equals `current_char` by construction, so the match
here is on `current_char`. -/
def scan_token (fuel : Nat) (c0 : Cursor) : Except Fatal (Token × Cursor) :=
  let c := skip_ws_comments fuel c0
  let loc := c.loc
  match c.current_char with
  | none => .ok (mkToken .EOF loc "EOF" none, c)
  | some ch =>
    if ch = ',' then .ok (mkToken .COMMA loc "," none, advance c)
    else if ch = '(' then .ok (mkToken .L_PAREN loc "(" none, advance c)
    else if ch = ')' then .ok (mkToken .R_PAREN loc ")" none, advance c)
    else if ch = Char.ofNat 123 then .ok (mkToken .L_BRACK loc (String.mk [Char.ofNat 123]) none, advance c)
    else if ch = Char.ofNat 125 then .ok (mkToken .R_BRACK loc (String.mk [Char.ofNat 125]) none, advance c)
    else if ch = '[' then .ok (mkToken .L_SQUARE loc "[" none, advance c)
    else if ch = ']' then .ok (mkToken .R_SQUARE loc "]" none, advance c)
    else if ch = '<' then .ok (mkToken .L_ANGLE loc "<" none, advance c)
    else if ch = '>' then .ok (mkToken .R_ANGLE loc ">" none, advance c)
    else if ch = ':' then .ok (mkToken .COLON loc ":" none, advance c)
    else if ch = ';' then .ok (mkToken .SEMICOLON loc ";" none, advance c)
    else if ch = '.' then .ok (mkToken .DOT loc "." none, advance c)
    else if ch = '+' then .ok (mkToken .PLUS loc "+" none, advance c)
    else if ch = '-' then .ok (mkToken .MINUS loc "-" none, advance c)
    else if ch = '*' then .ok (mkToken .STAR loc "*" none, advance c)
    else if ch = '&' then .ok (mkToken .AMPERSAND loc "&" none, advance c)
    else if ch = '/' then .ok (mkToken .DIVIDE loc "/" none, advance c)
    else if ch = '=' then
      let c1 := advance c
      if c1.current_char = some '=' then
        .ok (mkToken .DOUBLE_EQUALS loc "==" none, advance c1)
      else .ok (mkToken .EQUALS loc "=" none, c1)
    else if ch = '"' then consume_string fuel loc c
    else if ch.isDigit then consume_number fuel loc c
    else if ch.isAlpha ∨ ch = '_' then .ok (consume_ident fuel loc c)
    else .error (.assertion "not implemented: unexpected char error")

/-- The full lexer state: the scanning cursor plus the one-token peek
buffer (lexer.py `Lexer.peek_token`). -/
structure Lexer where
  cur : Cursor
  peek_token : Option Token
deriving DecidableEq, Repr

/-- A lexer over a whole source text, as built by `Lexer.__init__` after a
successful file read. -/
def initLexer (file : String) (contents : String) : Lexer :=
  { cur := mkCursor file contents, peek_token := none }

/-- Return the next token, consuming it (lexer.py `Lexer.next_token`): a
buffered peeked token is returned and cleared before any further scan. -/
def next_token (fuel : Nat) (l : Lexer) : Except Fatal (Token × Lexer) :=
  match l.peek_token with
  | some t => .ok (t, { cur := l.cur, peek_token := none })
  | none =>
    match scan_token fuel l.cur with
    | .ok (t, c) => .ok (t, { cur := c, peek_token := none })
    | .error e => .error e

/-- Return the next token without consuming it (lexer.py `Lexer.peek`):
the produced token is stored in the peek buffer. -/
def peek (fuel : Nat) (l : Lexer) : Except Fatal (Token × Lexer) :=
  match l.peek_token with
  | some t => .ok (t, l)
  | none =>
    match next_token fuel l with
    | .ok (t, l1) => .ok (t, { cur := l1.cur, peek_token := some t })
    | .error e => .error e

/-- Consume one token, raising the diagnostic when its type differs from
the expected one (lexer.py `Lexer.expect_type`). -/
def expect_type (fuel : Nat) (l : Lexer) (typ : TokenType) :
    Except Fatal (Token × Lexer) :=
  match next_token fuel l with
  | .ok (t, l1) =>
    if t.typ ≠ typ then
      .error (.tableError
        ("Expected token " ++ typ.toStr ++ ", found token " ++ t.typ.toStr)
        (some t.loc))
    else .ok (t, l1)
  | .error e => .error e

/-- Binary operator tags (table_ast.py `BinOp`). -/
inductive BinOp where
  | plus | minus | times | divide
deriving DecidableEq, Repr

/-- Unary operator tags (table_ast.py `UnaryOp`). -/
inductive UnaryOp where
  | deref | ref | negate
deriving DecidableEq, Repr

/-- Types of the language (table_ast.py `TableType`): the dataclass
variants `TableArrayType`, `TablePointerType`, `TableUserType`, plus the
string members of the union, "int" | "float" | "str" | "none" | "Self". -/
inductive TableType where
  | array (element_type : TableType) (length : Int)
  | pointer (points_to : TableType)
  | user (path : List String)
  | int | float | str | noneTy | selfTy
deriving DecidableEq, Repr

/-- Expressions (table_ast.py `Expr`). The last four constructors are
absent from src/table_ast.py. Modelled from the spec: table_parser.py
builds `table_ast.IntExpr`, `FloatExpr`, `StrExpr` and `ArrayExpr` nodes,
which the data model of section 3 describes as literal nodes carrying the
token's decoded value and as the array literal with its ordered element
list. Each carries exactly the `tok.val` the parser passes. -/
inductive Expr where
  | assignExpr (name : Expr) (value : Expr)
  | binExpr (op : BinOp) (lhs : Expr) (rhs : Expr)
  | unaryExpr (op : UnaryOp) (inner : Expr)
  | literalExpr (typ : TableType) (val : String)
  | funCall (name : Expr) (args : List Expr)
  | identExpr (name : String)
  | nameExpr (name : Expr) (subname : String)
  | intExpr (val : TokenVal)
  | floatExpr (val : TokenVal)
  | strExpr (val : TokenVal)
  | arrayExpr (items : List Expr)
deriving Repr

/-- A name paired with a type (table_ast.py `Binding`). -/
structure Binding where
  name : String
  typ : TableType
deriving DecidableEq, Repr

mutual
/-- Statements (table_ast.py `Stmt`): let, const, expression statement,
block, return. -/
inductive Stmt where
  | letDef (binding : Binding) (value : Expr)
  | constDef (binding : Binding) (value : Expr)
  | exprStmt (expr : Expr)
  | blockStmt (b : BlockStmt)
  | returnStmt (value : Expr)
deriving Repr

/-- A block of statements (table_ast.py `BlockStmt`). -/
inductive BlockStmt where
  | mk (stmts : List Stmt)
deriving Repr
end

/-- A function signature (table_ast.py `FunSig`). -/
structure FunSig where
  params : List Binding
  return_type : TableType
deriving Repr

/-- A function definition (table_ast.py `FunDef`). -/
structure FunDef where
  name : String
  sig : FunSig
  body : BlockStmt
deriving Repr

/-- Top-level declarations (table_ast.py `TopLevel`): const definitions,
function definitions, imports, interfaces and structs. -/
inductive TopLevel where
  | constDef (binding : Binding) (value : Expr)
  | funDef (f : FunDef)
  | importDecl (path : List String)
  | interface (name : String) (functions : List (String × FunSig))
  | struct (name : String) (fields : List Binding) (methods : List FunDef)
deriving Repr

/-- Python's comparison of a `Token` object against a `TokenType` member,
as written in table_parser.py `parse_addexpr`:
`elif plus_or_minus == TokenType.MINUS`. `Token` defines no equality and
is not an int, so the comparison is always false. -/
def tokenEqType (_t : Token) (_ty : TokenType) : Bool := false

/-- The expression parsers of table_parser.py, packaged as one record per
fuel level so that the mutual recursion of the source becomes a single
recursion on fuel. Field `args` is `parse_args`, `factor` is
`parse_factor`, `name_expr` is `parse_name_expr`, `unary` is
`parse_unary`, `funcall` is `parse_funcall`, `term` is `parse_term`,
`addexpr` is `parse_addexpr` and `expr` is `parse_expr`; the `_loop`
fields are the corresponding `while` loops. -/
structure ExprP where
  args : Lexer → Except Fatal (List Expr × Lexer)
  args_loop : Lexer → Except Fatal (List Expr × Lexer)
  factor : Lexer → Except Fatal (Expr × Lexer)
  items_loop : Lexer → Except Fatal (List Expr × Lexer)
  name_expr : Lexer → Except Fatal (Expr × Lexer)
  name_expr_loop : Lexer → Expr → Except Fatal (Expr × Lexer)
  unary : Lexer → Except Fatal (Expr × Lexer)
  funcall : Lexer → Except Fatal (Expr × Lexer)
  funcall_loop : Lexer → Expr → Except Fatal (Expr × Lexer)
  term : Lexer → Except Fatal (Expr × Lexer)
  term_loop : Lexer → Expr → Except Fatal (Expr × Lexer)
  addexpr : Lexer → Except Fatal (Expr × Lexer)
  addexpr_loop : Lexer → Expr → Except Fatal (Expr × Lexer)
  expr : Lexer → Except Fatal (Expr × Lexer)

/-- The fuel-indexed family of expression parsers. Each body is the direct
transcription of the corresponding table_parser.py function; recursive
calls go through the record one fuel level down. -/
def exprP : Nat → ExprP
  | 0 =>
    { args := fun _ => .error .outOfFuel,
      args_loop := fun _ => .error .outOfFuel,
      factor := fun _ => .error .outOfFuel,
      items_loop := fun _ => .error .outOfFuel,
      name_expr := fun _ => .error .outOfFuel,
      name_expr_loop := fun _ _ => .error .outOfFuel,
      unary := fun _ => .error .outOfFuel,
      funcall := fun _ => .error .outOfFuel,
      funcall_loop := fun _ _ => .error .outOfFuel,
      term := fun _ => .error .outOfFuel,
      term_loop := fun _ _ => .error .outOfFuel,
      addexpr := fun _ => .error .outOfFuel,
      addexpr_loop := fun _ _ => .error .outOfFuel,
      expr := fun _ => .error .outOfFuel }
  | fuel + 1 =>
    let P := exprP fuel
    { -- table_parser.py parse_args: "(" (expr ("," expr)*)? ")"
      args := fun l => do
        let (_, l) ← expect_type fuel l .L_PAREN
        let (p, l) ← peek fuel l
        if p.typ = .R_PAREN then
          let (_, l) ← expect_type fuel l .R_PAREN
          .ok ([], l)
        else
          let (first, l) ← P.expr l
          let (rest, l) ← P.args_loop l
          let (_, l) ← expect_type fuel l .R_PAREN
          .ok (first :: rest, l),
      args_loop := fun l => do
        let (p, l) ← peek fuel l
        if p.typ = .COMMA then
          let (_, l) ← expect_type fuel l .COMMA
          let (a, l) ← P.expr l
          let (rest, l) ← P.args_loop l
          .ok (a :: rest, l)
        else .ok ([], l),
      -- table_parser.py parse_factor: parenthesized expression, array
      -- literal, identifier or literal. The literal branches first run
      -- Python's assert on tok.val, which is an AttributeError when the
      -- val attribute was never assigned.
      factor := fun l => do
        let (tok, l) ← next_token fuel l
        match tok.typ with
        | .L_PAREN =>
          let (e, l) ← P.expr l
          let (_, l) ← expect_type fuel l .R_PAREN
          .ok (e, l)
        | .L_SQUARE =>
          let (p, l) ← peek fuel l
          if p.typ = .R_SQUARE then
            let (_, l) ← expect_type fuel l .R_SQUARE
            .ok (.arrayExpr [], l)
          else
            let (first, l) ← P.expr l
            let (rest, l) ← P.items_loop l
            let (_, l) ← expect_type fuel l .R_SQUARE
            .ok (.arrayExpr (first :: rest), l)
        | .IDENT =>
          match tok.val with
          | some (.str s) => .ok (.identExpr s, l)
          | some _ => .error (.assertion "token val should be str")
          | none => .error (.attributeError "val")
        | .INT_LIT =>
          match tok.val with
          | some v =>
            if v.truthy then .ok (.intExpr v, l)
            else .error (.assertion "int literal value should be a string")
          | none => .error (.attributeError "val")
        | .FLOAT_LIT =>
          match tok.val with
          | some v =>
            if v.truthy then .ok (.floatExpr v, l)
            else .error (.assertion "float literal value should be a string")
          | none => .error (.attributeError "val")
        | .STR_LIT =>
          match tok.val with
          | some v =>
            if v.truthy then .ok (.strExpr v, l)
            else .error (.assertion "string literal value should be a string")
          | none => .error (.attributeError "val")
        | _ =>
          .error (.tableError
            ("Unexpected token when parsing factor: " ++ tok.lexeme)
            (some tok.loc)),
      items_loop := fun l => do
        let (p, l) ← peek fuel l
        if p.typ = .COMMA then
          let (_, l) ← expect_type fuel l .COMMA
          let (a, l) ← P.expr l
          let (rest, l) ← P.items_loop l
          .ok (a :: rest, l)
        else .ok ([], l),
      -- table_parser.py parse_name_expr: factor ("." ident)*
      name_expr := fun l => do
        let (e, l) ← P.factor l
        P.name_expr_loop l e,
      name_expr_loop := fun l e => do
        let (p, l) ← peek fuel l
        if p.typ = .DOT then
          let (_, l) ← expect_type fuel l .DOT
          let (identTok, l) ← expect_type fuel l .IDENT
          match identTok.val with
          | some (.str s) => P.name_expr_loop l (.nameExpr e s)
          | some _ => .error (.assertion "ident val should be str")
          | none => .error (.attributeError "val")
        else .ok (e, l),
      -- table_parser.py parse_unary: at most one prefix "&", "*" or "-"
      unary := fun l => do
        let (next_tok, l) ← peek fuel l
        if next_tok.typ = .AMPERSAND then
          let (_, l) ← expect_type fuel l .AMPERSAND
          let (inner, l) ← P.name_expr l
          .ok (.unaryExpr .ref inner, l)
        else if next_tok.typ = .STAR then
          let (_, l) ← expect_type fuel l .STAR
          let (inner, l) ← P.name_expr l
          .ok (.unaryExpr .deref inner, l)
        else if next_tok.typ = .MINUS then
          let (_, l) ← expect_type fuel l .MINUS
          let (inner, l) ← P.name_expr l
          .ok (.unaryExpr .negate inner, l)
        else P.name_expr l,
      -- table_parser.py parse_funcall: unary (args)*
      funcall := fun l => do
        let (e, l) ← P.unary l
        P.funcall_loop l e,
      funcall_loop := fun l e => do
        let (p, l) ← peek fuel l
        if p.typ = .L_PAREN then
          let (args, l) ← P.args l
          P.funcall_loop l (.funCall e args)
        else .ok (e, l),
      -- table_parser.py parse_term: funcall (("*" | "/") funcall)*
      term := fun l => do
        let (factor, l) ← P.funcall l
        P.term_loop l factor,
      term_loop := fun l factor => do
        let (p, l) ← peek fuel l
        if p.typ = .STAR ∨ p.typ = .DIVIDE then
          let (star_or_div, l) ← next_token fuel l
          let (next_factor, l) ← P.funcall l
          let op := if star_or_div.typ = .STAR then BinOp.times else BinOp.divide
          P.term_loop l (.binExpr op factor next_factor)
        else .ok (factor, l),
      -- table_parser.py parse_addexpr: term (("+" | "-") term)*. The
      -- operator selection reproduces the source exactly: the minus test
      -- compares the token object itself against TokenType.MINUS (always
      -- false), so a consumed minus token reaches the unreachable assert.
      addexpr := fun l => do
        let (term, l) ← P.term l
        P.addexpr_loop l term,
      addexpr_loop := fun l term => do
        let (p, l) ← peek fuel l
        if p.typ = .PLUS ∨ p.typ = .MINUS then
          let (plus_or_minus, l) ← next_token fuel l
          let (next_term, l) ← P.term l
          if plus_or_minus.typ = .PLUS then
            P.addexpr_loop l (.binExpr .plus term next_term)
          else if tokenEqType plus_or_minus .MINUS then
            P.addexpr_loop l (.binExpr .minus term next_term)
          else .error (.assertion "unreachable")
        else .ok (term, l),
      -- table_parser.py parse_expr: addexpr ("=" addexpr)?
      expr := fun l => do
        let (first, l) ← P.addexpr l
        let (tok, l) ← peek fuel l
        if tok.typ ≠ .EQUALS then .ok (first, l)
        else
          let (_, l) ← expect_type fuel l .EQUALS
          let (value, l) ← P.addexpr l
          .ok (.assignExpr first value, l) }

/-- Parse a parenthesized comma-separated expression list (table_parser.py
`parse_args`). -/
def parse_args (fuel : Nat) (l : Lexer) : Except Fatal (List Expr × Lexer) :=
  (exprP fuel).args l

/-- Parse a factor (table_parser.py `parse_factor`). -/
def parse_factor (fuel : Nat) (l : Lexer) : Except Fatal (Expr × Lexer) :=
  (exprP fuel).factor l

/-- Parse a name expression (table_parser.py `parse_name_expr`). -/
def parse_name_expr (fuel : Nat) (l : Lexer) : Except Fatal (Expr × Lexer) :=
  (exprP fuel).name_expr l

/-- Parse a unary expression (table_parser.py `parse_unary`). -/
def parse_unary (fuel : Nat) (l : Lexer) : Except Fatal (Expr × Lexer) :=
  (exprP fuel).unary l

/-- Parse a function call (table_parser.py `parse_funcall`). -/
def parse_funcall (fuel : Nat) (l : Lexer) : Except Fatal (Expr × Lexer) :=
  (exprP fuel).funcall l

/-- Parse a term (table_parser.py `parse_term`). -/
def parse_term (fuel : Nat) (l : Lexer) : Except Fatal (Expr × Lexer) :=
  (exprP fuel).term l

/-- Parse an additive expression (table_parser.py `parse_addexpr`). -/
def parse_addexpr (fuel : Nat) (l : Lexer) : Except Fatal (Expr × Lexer) :=
  (exprP fuel).addexpr l

/-- Parse an expression (table_parser.py `parse_expr`). -/
def parse_expr (fuel : Nat) (l : Lexer) : Except Fatal (Expr × Lexer) :=
  (exprP fuel).expr l

/-- The dotted-path loop of the user-defined-type branch of `parse_type`. -/
def parse_type_path_loop : Nat → Lexer → List String →
    Except Fatal (TableType × Lexer)
  | 0, _, _ => .error .outOfFuel
  | fuel + 1, l, path => do
    let (p, l) ← peek fuel l
    if p.typ = .DOT then
      let (_, l) ← expect_type fuel l .DOT
      let (identTok, l) ← expect_type fuel l .IDENT
      match identTok.val with
      | some (.str s) => parse_type_path_loop fuel l (path ++ [s])
      | some _ => .error (.assertion "ident value must be string")
      | none => .error (.attributeError "val")
    else .ok (.user path, l)

/-- Parse a type (table_parser.py `parse_type`). In the fixed-array branch
the source runs `length = int(length)` on the `Token` object itself; that
raises `TypeError`, the blanket `except Exception` catches it, and
`assert False, "handle exception"` fires, so the branch never returns. -/
def parse_type : Nat → Lexer → Except Fatal (TableType × Lexer)
  | 0, _ => .error .outOfFuel
  | fuel + 1, l => do
    let (tok, l) ← next_token fuel l
    if tok.typ = .L_SQUARE then do
      let (_, l) ← parse_type fuel l
      let (_, l) ← expect_type fuel l .SEMICOLON
      let (_, _) ← expect_type fuel l .INT_LIT
      .error (.assertion "handle exception")
    else if tok.typ = .STAR then do
      let (inner, l) ← parse_type fuel l
      .ok (.pointer inner, l)
    else if tok.typ = .SELF then .ok (.selfTy, l)
    else if tok.typ = .INT then .ok (.int, l)
    else if tok.typ = .FLOAT then .ok (.float, l)
    else if tok.typ = .STR then .ok (.str, l)
    else if tok.typ = .IDENT then
      match tok.val with
      | some (.str s) => parse_type_path_loop fuel l [s]
      | some _ => .error (.assertion "ident value must be string")
      | none => .error (.attributeError "val")
    else
      .error (.tableError ("Expected type or ident, found " ++ tok.lexeme)
        (some tok.loc))

/-- Parse a binding `ident : type` (table_parser.py `parse_binding`). The
name's value is checked after the type is parsed, as in the source. -/
def parse_binding (fuel : Nat) (l : Lexer) : Except Fatal (Binding × Lexer) := do
  let (name, l) ← expect_type fuel l .IDENT
  let (_, l) ← expect_type fuel l .COLON
  let (binding_type, l) ← parse_type fuel l
  match name.val with
  | some (.str s) => .ok ({ name := s, typ := binding_type }, l)
  | some _ => .error (.assertion "ident value must be string")
  | none => .error (.attributeError "val")

/-- Parse a let definition `let binding = expr ;` (table_parser.py
`parse_let_def`). -/
def parse_let_def (fuel : Nat) (l : Lexer) :
    Except Fatal ((Binding × Expr) × Lexer) := do
  let (_, l) ← expect_type fuel l .LET
  let (binding, l) ← parse_binding fuel l
  let (_, l) ← expect_type fuel l .EQUALS
  let (value, l) ← parse_expr fuel l
  let (_, l) ← expect_type fuel l .SEMICOLON
  .ok ((binding, value), l)

/-- Parse a const definition `const binding = expr ;` (table_parser.py
`parse_const_def`). -/
def parse_const_def (fuel : Nat) (l : Lexer) :
    Except Fatal ((Binding × Expr) × Lexer) := do
  let (_, l) ← expect_type fuel l .CONST
  let (binding, l) ← parse_binding fuel l
  let (_, l) ← expect_type fuel l .EQUALS
  let (value, l) ← parse_expr fuel l
  let (_, l) ← expect_type fuel l .SEMICOLON
  .ok ((binding, value), l)

/-- Parse a return statement `return expr ;` (table_parser.py
`parse_return_stmt`). -/
def parse_return_stmt (fuel : Nat) (l : Lexer) : Except Fatal (Stmt × Lexer) := do
  let (_, l) ← expect_type fuel l .RETURN
  let (value, l) ← parse_expr fuel l
  let (_, l) ← expect_type fuel l .SEMICOLON
  .ok (.returnStmt value, l)

/-- The statement parsers of table_parser.py, packaged per fuel level:
`stmt` is `parse_stmt`, `block_stmt` is `parse_block_stmt`, `block_loop`
is the statement loop of `parse_block_stmt`. -/
structure StmtP where
  stmt : Lexer → Except Fatal (Stmt × Lexer)
  block_stmt : Lexer → Except Fatal (BlockStmt × Lexer)
  block_loop : Lexer → Except Fatal (List Stmt × Lexer)

/-- The fuel-indexed family of statement parsers, transcribing
table_parser.py `parse_stmt` and `parse_block_stmt`. -/
def stmtP : Nat → StmtP
  | 0 =>
    { stmt := fun _ => .error .outOfFuel,
      block_stmt := fun _ => .error .outOfFuel,
      block_loop := fun _ => .error .outOfFuel }
  | fuel + 1 =>
    let P := stmtP fuel
    { -- table_parser.py parse_stmt: dispatch on the peeked token
      stmt := fun l => do
        let (next_tok, l) ← peek fuel l
        if next_tok.typ = .LET then do
          let ((b, v), l) ← parse_let_def fuel l
          .ok (.letDef b v, l)
        else if next_tok.typ = .CONST then do
          let ((b, v), l) ← parse_const_def fuel l
          .ok (.constDef b v, l)
        else if next_tok.typ = .L_BRACK then do
          let (b, l) ← P.block_stmt l
          .ok (.blockStmt b, l)
        else if next_tok.typ = .RETURN then parse_return_stmt fuel l
        else do
          let (e, l) ← parse_expr fuel l
          let (_, l) ← expect_type fuel l .SEMICOLON
          .ok (.exprStmt e, l),
      -- table_parser.py parse_block_stmt: "{" stmt* "}"
      block_stmt := fun l => do
        let (_, l) ← expect_type fuel l .L_BRACK
        let (stmts, l) ← P.block_loop l
        let (_, l) ← expect_type fuel l .R_BRACK
        .ok (.mk stmts, l),
      block_loop := fun l => do
        let (p, l) ← peek fuel l
        if p.typ ≠ .R_BRACK then
          let (s, l) ← P.stmt l
          let (rest, l) ← P.block_loop l
          .ok (s :: rest, l)
        else .ok ([], l) }

/-- Parse a statement (table_parser.py `parse_stmt`). -/
def parse_stmt (fuel : Nat) (l : Lexer) : Except Fatal (Stmt × Lexer) :=
  (stmtP fuel).stmt l

/-- Parse a block statement (table_parser.py `parse_block_stmt`). -/
def parse_block_stmt (fuel : Nat) (l : Lexer) : Except Fatal (BlockStmt × Lexer) :=
  (stmtP fuel).block_stmt l

/-- The binding comma loop of `parse_params`. -/
def parse_params_loop : Nat → Lexer → Except Fatal (List Binding × Lexer)
  | 0, _ => .error .outOfFuel
  | fuel + 1, l => do
    let (p, l) ← peek fuel l
    if p.typ = .COMMA then
      let (_, l) ← expect_type fuel l .COMMA
      let (b, l) ← parse_binding fuel l
      let (rest, l) ← parse_params_loop fuel l
      .ok (b :: rest, l)
    else .ok ([], l)

/-- Parse a parenthesized parameter list with an optional leading `self`
(table_parser.py `parse_params`). The `self` test short-circuits: the
token's value is only read once the token is an identifier, and a comma
after `self` with nothing before `)` is the trailing-comma diagnostic. -/
def parse_params (fuel : Nat) (l : Lexer) :
    Except Fatal (List Binding × Lexer) := do
  let (_, l) ← expect_type fuel l .L_PAREN
  let (tok, l) ← peek fuel l
  let (selfParams, l) ←
    if tok.typ = .IDENT then
      match tok.val with
      | some (.str s) =>
        if s = "self" then do
          let (_, l) ← expect_type fuel l .IDENT
          let (p, l) ← peek fuel l
          if p.typ = .COMMA then do
            let (_, l) ← expect_type fuel l .COMMA
            let (p2, l) ← peek fuel l
            if p2.typ = .R_PAREN then
              .error (.tableError "Unexpected trailing comma" (some p2.loc))
            else .ok ([Binding.mk s .selfTy], l)
          else .ok ([Binding.mk s .selfTy], l)
        else .ok ([], l)
      | some _ => .ok ([], l)
      | none => .error (.attributeError "val")
    else .ok ([], l)
  let (p, l) ← peek fuel l
  if p.typ = .R_PAREN then do
    let (_, l) ← expect_type fuel l .R_PAREN
    .ok (selfParams, l)
  else do
    let (first, l) ← parse_binding fuel l
    let (rest, l) ← parse_params_loop fuel l
    let (_, l) ← expect_type fuel l .R_PAREN
    .ok (selfParams ++ first :: rest, l)

/-- Parse the named signature `fun ident params (: type)?`; the return type
defaults to "none" (table_parser.py `parse_named_fun_sig`). -/
def parse_named_fun_sig (fuel : Nat) (l : Lexer) :
    Except Fatal ((String × FunSig) × Lexer) := do
  let (_, l) ← expect_type fuel l .FUN
  let (name, l) ← expect_type fuel l .IDENT
  match name.val with
  | some (.str s) => do
    let (params, l) ← parse_params fuel l
    let (p, l) ← peek fuel l
    if p.typ = .COLON then do
      let (_, l) ← expect_type fuel l .COLON
      let (rt, l) ← parse_type fuel l
      .ok ((s, FunSig.mk params rt), l)
    else .ok ((s, FunSig.mk params .noneTy), l)
  | some _ => .error (.assertion "ident value must be string")
  | none => .error (.attributeError "val")

/-- Parse a function definition: a named signature plus a block body
(table_parser.py `parse_fun_def`). -/
def parse_fun_def (fuel : Nat) (l : Lexer) : Except Fatal (FunDef × Lexer) := do
  let ((name, sig), l) ← parse_named_fun_sig fuel l
  let (body, l) ← parse_block_stmt fuel l
  .ok (FunDef.mk name sig body, l)

/-- Parse a function declaration: a named signature plus `;`
(table_parser.py `parse_fun_decl`). -/
def parse_fun_decl (fuel : Nat) (l : Lexer) :
    Except Fatal ((String × FunSig) × Lexer) := do
  let (sig, l) ← parse_named_fun_sig fuel l
  let (_, l) ← expect_type fuel l .SEMICOLON
  .ok (sig, l)

/-- The declaration loop of `parse_interface`. -/
def parse_interface_loop : Nat → Lexer →
    Except Fatal (List (String × FunSig) × Lexer)
  | 0, _ => .error .outOfFuel
  | fuel + 1, l => do
    let (p, l) ← peek fuel l
    if p.typ ≠ .R_BRACK then
      let (d, l) ← parse_fun_decl fuel l
      let (rest, l) ← parse_interface_loop fuel l
      .ok (d :: rest, l)
    else .ok ([], l)

/-- Parse an interface definition (table_parser.py `parse_interface`): the
empty body raises the "at least one function declaration" diagnostic at the
closing brace's location. -/
def parse_interface (fuel : Nat) (l : Lexer) : Except Fatal (TopLevel × Lexer) := do
  let (_, l) ← expect_type fuel l .INTERFACE
  let (name, l) ← expect_type fuel l .IDENT
  match name.val with
  | some (.str s) => do
    let (_, l) ← expect_type fuel l .L_BRACK
    let (functions, l) ← parse_interface_loop fuel l
    let (r_brack, l) ← expect_type fuel l .R_BRACK
    if functions.length = 0 then
      .error (.tableError "Expected at least one function declaration"
        (some r_brack.loc))
    else .ok (.interface s functions, l)
  | some _ => .error (.assertion "ident value must be string")
  | none => .error (.attributeError "val")

/-- The member loop of `parse_struct`: fields and methods interleaved. -/
def parse_struct_loop : Nat → Lexer →
    Except Fatal ((List Binding × List FunDef) × Lexer)
  | 0, _ => .error .outOfFuel
  | fuel + 1, l => do
    let (tok, l) ← peek fuel l
    if tok.typ = .R_BRACK then .ok (([], []), l)
    else if tok.typ = .IDENT then do
      let (field, l) ← parse_binding fuel l
      let (_, l) ← expect_type fuel l .SEMICOLON
      let ((fields, methods), l) ← parse_struct_loop fuel l
      .ok ((field :: fields, methods), l)
    else if tok.typ = .FUN then do
      let (fd, l) ← parse_fun_def fuel l
      let ((fields, methods), l) ← parse_struct_loop fuel l
      .ok ((fields, fd :: methods), l)
    else
      .error (.tableError
        ("Expected binding or function definition, found " ++ tok.lexeme)
        (some tok.loc))

/-- Parse a struct definition (table_parser.py `parse_struct`). -/
def parse_struct (fuel : Nat) (l : Lexer) : Except Fatal (TopLevel × Lexer) := do
  let (_, l) ← expect_type fuel l .STRUCT
  let (name, l) ← expect_type fuel l .IDENT
  match name.val with
  | some (.str s) => do
    let (_, l) ← expect_type fuel l .L_BRACK
    let ((fields, methods), l) ← parse_struct_loop fuel l
    let (_, l) ← expect_type fuel l .R_BRACK
    .ok (.struct s fields methods, l)
  | some _ => .error (.assertion "ident value must be string")
  | none => .error (.attributeError "val")

/-- The dotted-path loop of `parse_import`. -/
def parse_import_loop : Nat → Lexer → List String →
    Except Fatal (List String × Lexer)
  | 0, _, _ => .error .outOfFuel
  | fuel + 1, l, path => do
    let (p, l) ← peek fuel l
    if p.typ = .DOT then
      let (_, l) ← expect_type fuel l .DOT
      let (seg, l) ← expect_type fuel l .IDENT
      match seg.val with
      | some (.str s) => parse_import_loop fuel l (path ++ [s])
      | some _ => .error (.assertion "ident_value must be string")
      | none => .error (.attributeError "val")
    else .ok (path, l)

/-- Parse an import declaration (table_parser.py `parse_import`). -/
def parse_import (fuel : Nat) (l : Lexer) : Except Fatal (TopLevel × Lexer) := do
  let (_, l) ← expect_type fuel l .IMPORT
  let (first_seg, l) ← expect_type fuel l .IDENT
  match first_seg.val with
  | some (.str s) => do
    let (path, l) ← parse_import_loop fuel l [s]
    let (_, l) ← expect_type fuel l .SEMICOLON
    .ok (.importDecl path, l)
  | some _ => .error (.assertion "ident value must be string")
  | none => .error (.attributeError "val")

/-- Parse one top-level declaration, dispatching on the peeked token
(table_parser.py `parse_top_level`). -/
def parse_top_level (fuel : Nat) (l : Lexer) : Except Fatal (TopLevel × Lexer) := do
  let (tok, l) ← peek fuel l
  if tok.typ = .CONST then do
    let ((b, v), l) ← parse_const_def fuel l
    .ok (.constDef b v, l)
  else if tok.typ = .FUN then do
    let (fd, l) ← parse_fun_def fuel l
    .ok (.funDef fd, l)
  else if tok.typ = .IMPORT then parse_import fuel l
  else if tok.typ = .INTERFACE then parse_interface fuel l
  else if tok.typ = .STRUCT then parse_struct fuel l
  else
    .error (.tableError
      ("Expected const or fun to begin top-level definition, found: "
        ++ tok.lexeme)
      (some tok.loc))

/-- The declaration loop of `parse_source_file`. -/
def parse_source_file_loop : Nat → Lexer → Except Fatal (List TopLevel × Lexer)
  | 0, _ => .error .outOfFuel
  | fuel + 1, l => do
    let (p, l) ← peek fuel l
    if p.typ ≠ .EOF then
      let (d, l) ← parse_top_level fuel l
      let (rest, l) ← parse_source_file_loop fuel l
      .ok (d :: rest, l)
    else .ok ([], l)

/-- Parse a whole source file: top-level declarations until end of input
(table_parser.py `parse_source_file`). -/
def parse_source_file (fuel : Nat) (l : Lexer) :
    Except Fatal (List TopLevel × Lexer) :=
  parse_source_file_loop fuel l

/-- Whether an error is the repository's diagnostic kind (`TableError`),
as opposed to a Python assertion or attribute failure. -/
def Fatal.is_diagnostic : Fatal → Bool
  | .tableError _ _ => true
  | _ => false

/-- Whether a tokenizing step ended in the diagnostic error kind. -/
def token_result_diagnostic (r : Except Fatal (Token × Lexer)) : Bool :=
  match r with
  | .error e => e.is_diagnostic
  | .ok _ => false

/-- A successful `next_token` always leaves the peek buffer empty: the
buffered token is cleared before being returned, and a fresh scan never
touches the buffer. -/
theorem next_token_peek_none (fuel : Nat) (l : Lexer) (t : Token) (l1 : Lexer)
    (h : next_token fuel l = .ok (t, l1)) : l1.peek_token = none := by
  unfold next_token at h
  cases hp : l.peek_token with
  | some u =>
    rw [hp] at h
    simp only [Except.ok.injEq, Prod.mk.injEq] at h
    obtain ⟨-, h2⟩ := h
    rw [← h2]
  | none =>
    rw [hp] at h
    cases hs : scan_token fuel l.cur with
    | error e => rw [hs] at h; exact absurd h (by simp)
    | ok p =>
      obtain ⟨t0, c⟩ := p
      rw [hs] at h
      simp only [Except.ok.injEq, Prod.mk.injEq] at h
      obtain ⟨-, h2⟩ := h
      rw [← h2]

end Table

/-- C1: parsing `fun add(x: int, y: int): int { return x + y; }` as a
top-level declaration yields a function definition named `add` with two
`int` parameters `x` and `y`, return type `int`, and a body block holding
exactly one return statement whose value is a binary plus over the
identifier expressions `x` and `y`. -/
theorem C1_parse_fun_add :
    (Table.parse_top_level 200 (Table.initLexer "input"
        "fun add(x: int, y: int): int { return x + y; }")).map (fun p => p.1) =
      .ok (.funDef
        { name := "add",
          sig := { params := [{ name := "x", typ := .int },
                              { name := "y", typ := .int }],
                   return_type := .int },
          body := .mk [.returnStmt
            (.binExpr .plus (.identExpr "x") (.identExpr "y"))] }) := rfl

/-- C2: the additive fold never builds a minus node. The source's operator
selection compares the consumed token object itself (not its type tag)
against `TokenType.MINUS`, which is always false, so any `t1 - t2` input
falls into the `assert False, "unreachable"` branch instead of producing a
binary minus expression; `t1 + t2 - t3` dies the same way. -/
theorem C2_minus_reaches_unreachable :
    Table.parse_expr 100 (Table.initLexer "input" "a - b") =
      .error (.assertion "unreachable") ∧
    Table.parse_expr 100 (Table.initLexer "input" "a + b - c") =
      .error (.assertion "unreachable") := ⟨rfl, rfl⟩

/-- C3: `1 + 2 * 3` parses as plus applied to the literal 1 and a times
node over the literals 2 and 3, and `a.b.c` parses as two nested
qualified-access nodes associated to the left. -/
theorem C3_precedence_and_left_assoc :
    (Table.parse_expr 100 (Table.initLexer "input" "1 + 2 * 3")).map
        (fun p => p.1) =
      .ok (.binExpr .plus (.intExpr (.int 1))
        (.binExpr .times (.intExpr (.int 2)) (.intExpr (.int 3)))) ∧
    (Table.parse_expr 100 (Table.initLexer "input" "a.b.c")).map
        (fun p => p.1) =
      .ok (.nameExpr (.nameExpr (.identExpr "a") "b") "c") := ⟨rfl, rfl⟩

/-- C4: parsing the type `[int; 4]` does not return an array type: the
fixed-array branch applies Python's `int()` to the length `Token` object,
the resulting `TypeError` is swallowed by the blanket `except`, and
`assert False, "handle exception"` fires. Parsing `**int` does return a
pointer to a pointer to `int`. -/
theorem C4_array_type_crashes_pointer_ok :
    Table.parse_type 100 (Table.initLexer "input" "[int; 4]") =
      .error (.assertion "handle exception") ∧
    (Table.parse_type 100 (Table.initLexer "input" "**int")).map
        (fun p => p.1) =
      .ok (.pointer (.pointer .int)) := ⟨rfl, rfl⟩

/-- C5: parsing `interface Empty {}` as a top-level declaration raises the
diagnostic error kind with the "at least one function declaration" message
at the closing brace's location, and returns no interface node. -/
theorem C5_empty_interface_diagnostic :
    Table.parse_top_level 100 (Table.initLexer "input" "interface Empty {}") =
      .error (.tableError "Expected at least one function declaration"
        (some { file := "input", posn := 17, line := 0, col := 17 })) := rfl

/-- C6 counterexample: for the source text of the string literal `"a\n"`
the produced token's lexeme is the decoded text re-enclosed in quotes (a
quote, `a`, a literal newline, a quote), which differs from the raw quoted
source text (a quote, `a`, a backslash, `n`, a quote). -/
theorem C6_counterexample :
    (Table.next_token 100 (Table.initLexer "input" "\"a\\n\"")).map
        (fun p => p.1.lexeme) = .ok "\"a\n\"" ∧
    "\"a\n\"" ≠ "\"a\\n\"" := ⟨rfl, by decide⟩

/-- C6 amended: every token `consume_string` produces is a string-literal
token, and whenever its stored payload is the decoded text `s`, its lexeme
is `s` enclosed in double quotes (so escapes are resolved in the lexeme as
well; it equals the raw source text only when no escapes occur). -/
theorem C6_string_token_lexeme (fuel : Nat) (loc : Table.Location)
    (c : Table.Cursor) (t : Table.Token) (c1 : Table.Cursor)
    (h : Table.consume_string fuel loc c = .ok (t, c1)) :
    t.typ = .STR_LIT ∧
    ∀ s : String, t.val = some (.str s) → t.lexeme = "\"" ++ s ++ "\"" := by
  unfold Table.consume_string at h
  split at h
  · cases hl : Table.consume_string_loop fuel (Table.advance c) "" with
    | error e => rw [hl] at h; exact absurd h (by simp)
    | ok p =>
      obtain ⟨s0, c0⟩ := p
      rw [hl] at h
      simp only [Except.ok.injEq, Prod.mk.injEq] at h
      obtain ⟨ht, -⟩ := h
      subst ht
      refine ⟨rfl, ?_⟩
      intro s hs
      simp only [Table.mkToken, Table.TokenVal.truthy] at hs ⊢
      by_cases h0 : s0 = ""
      · subst h0; simp at hs
      · simp [h0] at hs
        rw [← hs]
  · exact absurd h (by simp)

def c6tok : Table.Token :=
  { typ := .STR_LIT, loc := { file := "input", posn := 0, line := 0, col := 0 },
    lexeme := "\"ab\"", val := some (.str "ab") }

def c6cur : Table.Cursor :=
  { contents := "\"ab\"".toList,
    loc := { file := "input", posn := 4, line := 0, col := 4 },
    current_char := none }

/-- C6 witness: `consume_string` on the concrete literal `"ab"` succeeds,
and the amended theorem applies: the token is a string literal whose
lexeme is the payload `ab` enclosed in quotes. -/
theorem C6_string_token_lexeme_witness :
    Table.consume_string 50 { file := "input", posn := 0, line := 0, col := 0 }
        (Table.mkCursor "input" "\"ab\"") = .ok (c6tok, c6cur) ∧
    c6tok.typ = .STR_LIT ∧ c6tok.lexeme = "\"" ++ "ab" ++ "\"" :=
  ⟨rfl,
   (C6_string_token_lexeme 50 { file := "input", posn := 0, line := 0, col := 0 }
     (Table.mkCursor "input" "\"ab\"") c6tok c6cur rfl).1,
   (C6_string_token_lexeme 50 { file := "input", posn := 0, line := 0, col := 0 }
     (Table.mkCursor "input" "\"ab\"") c6tok c6cur rfl).2 "ab" rfl⟩

/-- C7: reaching end of input inside a string literal with no backslash
pending does not raise: the scan loop simply exits and a string token for
the unterminated literal `"abc` is returned, its lexeme re-quoted and its
payload the text read so far — contradicting the documented behaviour that
an unexpected EOF raises the diagnostic. -/
theorem C7_unterminated_string_returns_token :
    (Table.next_token 100 (Table.initLexer "input" "\"abc")).map
        (fun p => (p.1.typ, p.1.lexeme, p.1.val)) =
      .ok (.STR_LIT, "\"abc\"", some (.str "abc")) := rfl

/-- C8 counterexample: tokenizing `1.5` fails with the Python assertion
"not implemented: floating point literals", which is not the diagnostic
error kind (`TableError`), refuting the claim's final clause. -/
theorem C8_counterexample :
    Table.next_token 100 (Table.initLexer "input" "1.5") =
      .error (.assertion "not implemented: floating point literals") ∧
    Table.token_result_diagnostic
      (Table.next_token 100 (Table.initLexer "input" "1.5")) = false :=
  ⟨rfl, rfl⟩

/-- C8 amended: tokenizing a digit run containing `.` raises the fatal
"not implemented" assertion for floating-point literals and never produces
a float literal token; the raised condition is an assertion failure, not
the diagnostic error kind. -/
theorem C8_float_literal_not_implemented :
    Table.next_token 100 (Table.initLexer "input" "1.5") =
      .error (.assertion "not implemented: floating point literals") := rfl

/-- C9: peek is idempotent and non-consuming. If a peek returns token `t`
leaving state `s1`, then a second peek returns the same token and the same
state, a subsequent consume returns that very token, and the state after
peek-peek-consume equals the state a single consume reaches from the
original state: exactly one token is consumed in total. -/
theorem C9_peek_idempotent_nonconsuming (fuel : Nat) (s : Table.Lexer)
    (t : Table.Token) (s1 : Table.Lexer)
    (h : Table.peek fuel s = .ok (t, s1)) :
    Table.peek fuel s1 = .ok (t, s1) ∧
    Table.next_token fuel s1 = .ok (t, { cur := s1.cur, peek_token := none }) ∧
    Table.next_token fuel s = .ok (t, { cur := s1.cur, peek_token := none }) := by
  unfold Table.peek at h
  cases hp : s.peek_token with
  | some u =>
    rw [hp] at h
    simp only [Except.ok.injEq, Prod.mk.injEq] at h
    obtain ⟨h1, h2⟩ := h
    subst h1
    subst h2
    refine ⟨?_, ?_, ?_⟩ <;>
      simp [Table.peek, Table.next_token, hp]
  | none =>
    rw [hp] at h
    cases hn : Table.next_token fuel s with
    | error e => rw [hn] at h; exact absurd h (by simp)
    | ok p =>
      obtain ⟨t0, l0⟩ := p
      rw [hn] at h
      simp only [Except.ok.injEq, Prod.mk.injEq] at h
      obtain ⟨h1, h2⟩ := h
      subst h1
      subst h2
      have hl0 := Table.next_token_peek_none fuel s t0 l0 hn
      refine ⟨?_, ?_, ?_⟩
      · simp [Table.peek]
      · simp [Table.next_token]
      · obtain ⟨c, pk⟩ := l0
        cases pk with
        | none => rfl
        | some x => simp at hl0

def c9tok : Table.Token :=
  { typ := .IDENT, loc := { file := "input", posn := 0, line := 0, col := 0 },
    lexeme := "x", val := some (.str "x") }

def c9lex : Table.Lexer :=
  { cur := { contents := "x".toList,
             loc := { file := "input", posn := 1, line := 0, col := 1 },
             current_char := none },
    peek_token := some c9tok }

/-- C9 witness: on the concrete input `x`, peek succeeds with the
identifier token, a second peek and the subsequent consume return the same
token, and the final state matches a single direct consume. -/
theorem C9_peek_witness :
    Table.peek 4 (Table.initLexer "input" "x") = .ok (c9tok, c9lex) ∧
    (Table.peek 4 c9lex = .ok (c9tok, c9lex) ∧
     Table.next_token 4 c9lex =
       .ok (c9tok, { cur := c9lex.cur, peek_token := none }) ∧
     Table.next_token 4 (Table.initLexer "input" "x") =
       .ok (c9tok, { cur := c9lex.cur, peek_token := none })) :=
  ⟨rfl, C9_peek_idempotent_nonconsuming 4 (Table.initLexer "input" "x")
    c9tok c9lex rfl⟩

/-- C10: the token constructor stores its value only when truthy, so the
token for the integer literal `0` carries no value, every EOF token
carries no value, and parsing the expression `0` as a factor fails with
the missing-attribute error instead of returning an integer literal node. -/
theorem C10_falsy_value_dropped :
    (Table.next_token 10 (Table.initLexer "input" "0")).map
        (fun p => (p.1.typ, p.1.val)) = .ok (.INT_LIT, none) ∧
    (Table.next_token 10 (Table.initLexer "input" "")).map
        (fun p => (p.1.typ, p.1.val)) = .ok (.EOF, none) ∧
    (∀ loc : Table.Location, (Table.mkToken .EOF loc "EOF" none).val = none) ∧
    Table.parse_factor 10 (Table.initLexer "input" "0") =
      .error (.attributeError "val") :=
  ⟨rfl, rfl, fun _ => rfl, rfl⟩
